import Mathlib

/-!
Shallow embedding of `src/index.ts` of the websocketstream-ponyfill repository.

The source is a single class, `WebSocketStream`, adapting a browser `WebSocket`
to a `ReadableStream`/`WritableStream` pair plus two one-shot promises
(`opened`, `closed`).  We embed it as an executable state machine: the state
records the settlement of the two promises, the constructed stream pair's
controller states and enqueued items, whether the one-shot abort-signal
handler is still armed, and the trace of calls the adapter has issued on the
underlying socket (`send`, `close`).  Each event listener and stream hook of
the source becomes one Lean function; a `step` dispatcher fires them in the
registration order of the source when a socket event arrives.

Conventions matching the JavaScript semantics the source relies on:
- a Promise settles at most once: later `resolve`/`reject` calls are no-ops;
- `ReadableStreamDefaultController.close()` throws unless the stream is still
  readable (the source wraps it in `try { } catch { }`);
- `controller.enqueue` after close-request throws; the exception escapes the
  `message` listener and is dropped by the event loop, changing nothing;
- `WritableStreamDefaultController.error()` is a no-op unless the stream is
  still in the `writable` state;
- the writable sink hooks (`write`, `close`, `abort`) are invoked only while
  the stream is writable: operations on a closed/errored writable reject
  without reaching the sink; likewise `cancel` on an already closed readable;
- an `AbortSignal` listener registered with `once: true` fires at most once.
-/

namespace WSPonyfill

/-- `const ALLOWED_PROTOCOLS = ['ws:', 'wss:', 'http:', 'https:'];` -/
def ALLOWED_PROTOCOLS : List String := ["ws:", "wss:", "http:", "https:"]

/-- The error message built in the constructor:
`Failed to create WebSocketStream. Cause: Invalid URL protocol. Possible values are: ` followed by the quoted allowed values joined with `, ` and a final period. -/
def invalidProtocolMessage : String :=
  "Failed to create WebSocketStream. Cause: Invalid URL protocol. Possible values are: "
    ++ String.intercalate ", " (ALLOWED_PROTOCOLS.map (fun protocol => "\"" ++ protocol ++ "\""))
    ++ "."

/-- Helper for `urlProtocol`: consume scheme characters until the `:` that
terminates the scheme; fail on a character that cannot occur in a scheme or
if the input ends before a `:`. -/
def schemeAux : List Char → List Char → Option (List Char)
  | [], _ => none
  | c :: cs, acc =>
    if c = ':' then some acc.reverse
    else if c.isAlphanum || c = '+' || c = '-' || c = '.' then schemeAux cs (c :: acc)
    else none

/-- Models `new URL(url).protocol`: the URL's scheme (one ASCII letter, then
letters/digits/`+`/`-`/`.`), ASCII-lowercased, followed by `":"`.  Returns
`none` when the string has no scheme at all, in which case `new URL(url)`
itself throws a `TypeError` before the allow-list check runs. -/
def urlProtocol (url : String) : Option String :=
  match url.toList with
  | [] => none
  | c :: cs =>
    if c.isAlpha then
      (schemeAux cs [c]).map (fun l => String.mk (l.map Char.toLower) ++ ":")
    else none

/-- A call issued by the adapter on the underlying socket:
`this._ws.send(chunk)` or `this._ws.close(code, reason)` (either argument
may be `undefined`, modelled as `none`). -/
inductive SockCall (Chunk : Type) where
  | send (chunk : Chunk)
  | close (code : Option Nat) (reason : Option String)
  deriving DecidableEq

/-- Settlement state of the `opened` promise.  `rejected` carries the message
of the `Error` the executor rejects with. -/
inductive OpenedState where
  | pending
  | resolved (protocol : String) (extensions : String)
  | rejected (message : String)
  deriving DecidableEq

/-- The value the `closed` promise resolves with:
`{ closeCode: event.code, reason: event.reason }`. -/
structure ClosedResult where
  closeCode : Nat
  reason : String
  deriving DecidableEq

/-- State of the readable stream's controller.  The source never calls
`controller.error` on the readable side, but the state exists in the streams
API, so we include it and prove it unreachable. -/
inductive RCtrl where
  | readable
  | closedCtrl
  | erroredCtrl
  deriving DecidableEq

/-- State of the writable stream, tagged with what put it there:
`closedByProducer` after the producer's `close()` ran the sink close hook,
`erroredAbort` after the producer's `abort(reason)`, `erroredByClose` after
the socket-close listener ran `controller.error()`, `erroredBySend` after the
sink write hook (`this._ws.send`) threw. -/
inductive WCtrl where
  | writable
  | closedByProducer
  | erroredAbort (reason : String)
  | erroredByClose
  | erroredBySend
  deriving DecidableEq

/-- Observable state of one `WebSocketStream` instance.  `Data` is the type of
inbound message payloads, `Chunk` the type of outbound chunks.
`streamsCreated` records whether the `open` listener has resolved `opened`,
constructing the readable/writable pair; the controller fields are meaningful
only from that moment.  `sockCalls` is the ordered trace of calls issued on
the underlying socket. -/
structure WSState (Data Chunk : Type) where
  openedState : OpenedState := .pending
  closedState : Option ClosedResult := none
  streamsCreated : Bool := false
  readableItems : List Data := []
  readableCtrl : RCtrl := .readable
  writableCtrl : WCtrl := .writable
  signalArmed : Bool
  sockCalls : List (SockCall Chunk) := []
  deriving DecidableEq

variable {Data Chunk : Type}

/-- State right after a successful constructor run: both promises pending, no
streams yet, the abort-signal handler armed iff a signal was supplied. -/
def init (signalProvided : Bool) : WSState Data Chunk :=
  { signalArmed := signalProvided }

/-- `this._ws.close(code, reason)`: record the close call. -/
def wsClose (s : WSState Data Chunk) (code : Option Nat) (reason : Option String) :
    WSState Data Chunk :=
  { s with sockCalls := s.sockCalls ++ [.close code reason] }

/-- `this._ws.send(chunk)`: record the send call. -/
def wsSend (s : WSState Data Chunk) (chunk : Chunk) : WSState Data Chunk :=
  { s with sockCalls := s.sockCalls ++ [.send chunk] }

/-- `ReadableStreamDefaultController.close()`: succeeds (close-requests the
stream) only while the stream is readable; otherwise it throws, modelled as
`none`. -/
def controllerCloseR : RCtrl → Option RCtrl
  | .readable => some .closedCtrl
  | _ => none

/-- The readable side's socket-close listener:
`() => { try { controller.close(); } catch {} }` — the throw from closing an
already closed/errored stream is swallowed, leaving the state unchanged. -/
def readableCloseListener (s : WSState Data Chunk) : WSState Data Chunk :=
  match controllerCloseR s.readableCtrl with
  | some c => { s with readableCtrl := c }
  | none => s

/-- The `message` listener: `event => controller.enqueue(event.data)`.
`enqueue` appends the payload while the stream is readable; once the stream
is close-requested or errored it throws, the exception escapes the listener
and is dropped by the event loop, changing nothing. -/
def readableMessageListener (s : WSState Data Chunk) (d : Data) : WSState Data Chunk :=
  if s.readableCtrl = .readable then
    { s with readableItems := s.readableItems ++ [d] }
  else s

/-- The readable sink's `cancel` hook path: consumer cancellation closes the
stream, discards queued chunks, and runs `() => this._ws.close()`.  On an
already closed/errored stream, cancel resolves without reaching the sink. -/
def readableCancel (s : WSState Data Chunk) : WSState Data Chunk :=
  if s.readableCtrl = .readable then
    wsClose { s with readableCtrl := .closedCtrl, readableItems := [] } none none
  else s

/-- The writable side's socket-close listener:
`() => controller.error()` — a no-op unless the stream is still writable. -/
def writableCloseListener (s : WSState Data Chunk) : WSState Data Chunk :=
  if s.writableCtrl = .writable then { s with writableCtrl := .erroredByClose } else s

/-- The writable sink's `write` hook path: `chunk => this._ws.send(chunk)`.
Invoked only while the stream is writable; otherwise the write rejects
without reaching the sink.  `sendOk` says whether the underlying `send`
returned normally; if it threw, the write rejects and the stream errors.
Returns the new state and the outcome of the write operation. -/
def writableWrite (s : WSState Data Chunk) (chunk : Chunk) (sendOk : Bool) :
    WSState Data Chunk × Except Unit Unit :=
  if s.writableCtrl = .writable then
    let s' := wsSend s chunk
    if sendOk then (s', .ok ())
    else ({ s' with writableCtrl := .erroredBySend }, .error ())
  else (s, .error ())

/-- The writable sink's `close` hook path: producer-initiated graceful close
runs `() => this._ws.close()` and the stream becomes closed.  On an already
closed/errored stream the operation rejects without reaching the sink. -/
def writableClose (s : WSState Data Chunk) : WSState Data Chunk :=
  if s.writableCtrl = .writable then
    wsClose { s with writableCtrl := .closedByProducer } none none
  else s

/-- The writable sink's `abort` hook path:
`(reason: string) => this._ws.close(undefined, reason)`; the stream becomes
errored with the abort reason.  No-op on an already closed/errored stream. -/
def writableAbort (s : WSState Data Chunk) (reason : String) : WSState Data Chunk :=
  if s.writableCtrl = .writable then
    wsClose { s with writableCtrl := .erroredAbort reason } none (some reason)
  else s

/-- The `open` listener.  While `opened` is pending it resolves it with the
socket's negotiated protocol/extensions, constructing the readable/writable
pair at that moment.  If the promise is already settled, `resolve` is a
no-op; the stream objects the listener builds then are unreachable from any
observable surface (the settled promise never exposes them), so the
observable state is unchanged. -/
def openListener (s : WSState Data Chunk) (protocol extensions : String) :
    WSState Data Chunk :=
  if s.openedState = .pending then
    { s with openedState := .resolved protocol extensions, streamsCreated := true }
  else s

/-- The `error` listener: `() => reject(new Error('WebSocket error'))`, a
no-op once the promise is settled. -/
def errorListener (s : WSState Data Chunk) : WSState Data Chunk :=
  if s.openedState = .pending then { s with openedState := .rejected "WebSocket error" }
  else s

/-- The `close` listener of the `closed` promise executor: resolve with
`{ closeCode: event.code, reason: event.reason }`; a no-op once settled. -/
def closedResolver (s : WSState Data Chunk) (code : Nat) (reason : String) :
    WSState Data Chunk :=
  if s.closedState = none then { s with closedState := some ⟨code, reason⟩ } else s

/-- Dispatch of a socket `close` event to every registered `close` listener,
in registration order: the `closed` resolver (registered in the constructor),
then — only if the streams were constructed on `open` — the readable's
close listener and the writable's error listener. -/
def onSockClose (s : WSState Data Chunk) (code : Nat) (reason : String) :
    WSState Data Chunk :=
  let s₁ := closedResolver s code reason
  if s₁.streamsCreated then writableCloseListener (readableCloseListener s₁) else s₁

/-- `WebSocketStream.close({ closeCode, reason })`:
`this._ws.close(closeCode, reason)`. -/
def wssClose (s : WSState Data Chunk) (closeCode : Option Nat) (reason : Option String) :
    WSState Data Chunk :=
  wsClose s closeCode reason

/-- The abort-signal handler, registered with `once: true`:
`() => this.close()`.  Fires at most once; later signal activations find the
handler removed. -/
def signalFire (s : WSState Data Chunk) : WSState Data Chunk :=
  if s.signalArmed then wssClose { s with signalArmed := false } none none else s

/-- One external stimulus: a socket lifecycle event, an activation of the
supplied abort signal, a call to the public `close` method, or a
producer/consumer operation on the stream pair.  `streamWrite`'s `sendOk`
records whether the underlying `send` returned normally. -/
inductive Action (Data Chunk : Type) where
  | sockOpen (protocol extensions : String)
  | sockMessage (data : Data)
  | sockError
  | sockClose (code : Nat) (reason : String)
  | signalAbort
  | callClose (closeCode : Option Nat) (reason : Option String)
  | streamWrite (chunk : Chunk) (sendOk : Bool)
  | streamCloseW
  | streamAbortW (reason : String)
  | streamCancelR
  deriving DecidableEq

/-- One reaction step.  `message` listeners exist only once the streams were
constructed on `open`; stream operations are possible only once the streams
exist (before that there is no object to act on, modelled as a no-op). -/
def step (s : WSState Data Chunk) : Action Data Chunk → WSState Data Chunk
  | .sockOpen p e => openListener s p e
  | .sockMessage d => if s.streamsCreated then readableMessageListener s d else s
  | .sockError => errorListener s
  | .sockClose c r => onSockClose s c r
  | .signalAbort => signalFire s
  | .callClose c r => wssClose s c r
  | .streamWrite ch ok => if s.streamsCreated then (writableWrite s ch ok).1 else s
  | .streamCloseW => if s.streamsCreated then writableClose s else s
  | .streamAbortW r => if s.streamsCreated then writableAbort s r else s
  | .streamCancelR => if s.streamsCreated then readableCancel s else s

/-- Run a list of stimuli from a given state. -/
def runFrom (s : WSState Data Chunk) (tr : List (Action Data Chunk)) : WSState Data Chunk :=
  tr.foldl step s

/-- Run a list of stimuli from the freshly constructed state. -/
def run (signalProvided : Bool) (tr : List (Action Data Chunk)) : WSState Data Chunk :=
  runFrom (init signalProvided) tr

/-- Chunks passed to the socket's `send`, in call order. -/
def sends (s : WSState Data Chunk) : List Chunk :=
  s.sockCalls.filterMap (fun c => match c with | .send ch => some ch | _ => none)

/-- Arguments of the socket `close` calls, in call order. -/
def closes (s : WSState Data Chunk) : List (Option Nat × Option String) :=
  s.sockCalls.filterMap (fun c => match c with | .close code r => some (code, r) | _ => none)

/-- The settlement the first `open` or `error` event of a trace dictates for
the `opened` promise: `pending` if the trace has neither. -/
def firstOpenOrError : List (Action Data Chunk) → OpenedState
  | [] => .pending
  | .sockOpen p e :: _ => .resolved p e
  | .sockError :: _ => .rejected "WebSocket error"
  | _ :: tr => firstOpenOrError tr

/-- The code/reason pair of the first socket `close` event of a trace, if
any. -/
def firstClose : List (Action Data Chunk) → Option ClosedResult
  | [] => none
  | .sockClose c r :: _ => some ⟨c, r⟩
  | _ :: tr => firstClose tr

/-- Outcome of the constructor before any event can fire. -/
inductive ConstructError where
  | typeError (message : String)
  | syntaxError (message : String)
  deriving DecidableEq

/-- The constructor.  `new URL(url)` throws a `TypeError` on an unparsable
address; otherwise, a protocol outside `ALLOWED_PROTOCOLS` raises the
`SyntaxError` before the abort-signal listener is registered and before
`new WebSocket(url, protocols)` runs, so a `.error` result means the socket
factory was never invoked.  On success the socket is constructed, its
`binaryType` set, and all constructor-time listeners registered: the result
is the initial observable state. -/
def construct (url : String) (signalProvided : Bool) :
    Except ConstructError (WSState Data Chunk) :=
  match urlProtocol url with
  | none => .error (.typeError "Invalid URL")
  | some p =>
    if ALLOWED_PROTOCOLS.contains p then .ok (init signalProvided)
    else .error (.syntaxError invalidProtocolMessage)

/-! ### Step-level projection lemmas -/

lemma readableCloseListener_eq (s : WSState Data Chunk) :
    readableCloseListener s =
      if s.readableCtrl = .readable then { s with readableCtrl := .closedCtrl } else s := by
  cases h : s.readableCtrl <;> simp [readableCloseListener, controllerCloseR, h]

lemma step_openedState (s : WSState Data Chunk) (a : Action Data Chunk) :
    (step s a).openedState =
      (match a with
        | .sockOpen p e =>
            if s.openedState = .pending then .resolved p e else s.openedState
        | .sockError =>
            if s.openedState = .pending then .rejected "WebSocket error" else s.openedState
        | _ => s.openedState) := by
  cases a <;>
    simp only [step, openListener, errorListener, onSockClose, closedResolver,
      readableCloseListener_eq, writableCloseListener, readableMessageListener, readableCancel,
      writableWrite, writableClose, writableAbort, wsClose, wsSend, wssClose, signalFire] <;>
    (repeat' split) <;> rfl

lemma step_streamsCreated (s : WSState Data Chunk) (a : Action Data Chunk) :
    (step s a).streamsCreated =
      (match a with
        | .sockOpen _ _ => if s.openedState = .pending then true else s.streamsCreated
        | _ => s.streamsCreated) := by
  cases a <;>
    simp only [step, openListener, errorListener, onSockClose, closedResolver,
      readableCloseListener_eq, writableCloseListener, readableMessageListener, readableCancel,
      writableWrite, writableClose, writableAbort, wsClose, wsSend, wssClose, signalFire] <;>
    (repeat' split) <;> rfl

lemma step_closedState (s : WSState Data Chunk) (a : Action Data Chunk) :
    (step s a).closedState =
      (match a with
        | .sockClose c r => if s.closedState = none then some ⟨c, r⟩ else s.closedState
        | _ => s.closedState) := by
  cases a <;>
    simp only [step, openListener, errorListener, onSockClose, closedResolver,
      readableCloseListener_eq, writableCloseListener, readableMessageListener, readableCancel,
      writableWrite, writableClose, writableAbort, wsClose, wsSend, wssClose, signalFire] <;>
    (repeat' split) <;> simp_all

lemma runFrom_cons (s : WSState Data Chunk) (a : Action Data Chunk)
    (tr : List (Action Data Chunk)) : runFrom s (a :: tr) = runFrom (step s a) tr := rfl

/-! ### Characterization of the `opened` promise over a trace -/

lemma runFrom_opened_settled (tr : List (Action Data Chunk)) (s : WSState Data Chunk)
    (h : s.openedState ≠ .pending) :
    (runFrom s tr).openedState = s.openedState ∧
      (runFrom s tr).streamsCreated = s.streamsCreated := by
  induction tr generalizing s with
  | nil => exact ⟨rfl, rfl⟩
  | cons a tr ih =>
    have ho := step_openedState s a
    have hs := step_streamsCreated s a
    have h1 : (step s a).openedState = s.openedState := by
      cases a <;> simp_all
    have h2 : (step s a).streamsCreated = s.streamsCreated := by
      cases a <;> simp_all
    have := ih (step s a) (by rw [h1]; exact h)
    simpa [runFrom, h1, h2] using this

lemma runFrom_opened_pending (tr : List (Action Data Chunk)) (s : WSState Data Chunk)
    (h : s.openedState = .pending) (hs : s.streamsCreated = false) :
    (runFrom s tr).openedState = firstOpenOrError tr ∧
      ((runFrom s tr).streamsCreated = true ↔
        ∃ p e, firstOpenOrError tr = OpenedState.resolved p e) := by
  induction tr generalizing s with
  | nil =>
    refine ⟨h, ?_⟩
    show s.streamsCreated = true ↔ _
    rw [hs]
    simp [firstOpenOrError]
  | cons a tr ih =>
    cases a
    case sockOpen p e =>
      have ho : (step s (Action.sockOpen p e)).openedState = OpenedState.resolved p e := by
        rw [step_openedState]; simp [h]
      have hstr : (step s (Action.sockOpen p e)).streamsCreated = true := by
        rw [step_streamsCreated]; simp [h]
      have hset := runFrom_opened_settled tr (step s (Action.sockOpen p e)) (by rw [ho]; simp)
      rw [runFrom_cons, hset.1, hset.2, ho, hstr]
      simp [firstOpenOrError]
    case sockError =>
      have ho : (step s Action.sockError).openedState = OpenedState.rejected "WebSocket error" := by
        rw [step_openedState]; simp [h]
      have hstr : (step s Action.sockError).streamsCreated = s.streamsCreated := by
        rw [step_streamsCreated]
      have hset := runFrom_opened_settled tr (step s Action.sockError) (by rw [ho]; simp)
      rw [runFrom_cons, hset.1, hset.2, ho, hstr, hs]
      simp [firstOpenOrError]
    case sockMessage d =>
      rw [runFrom_cons]
      have := ih (step s (Action.sockMessage d))
        (by rw [step_openedState]; exact h) (by rw [step_streamsCreated]; exact hs)
      simpa [firstOpenOrError] using this
    case sockClose c r =>
      rw [runFrom_cons]
      have := ih (step s (Action.sockClose c r))
        (by rw [step_openedState]; exact h) (by rw [step_streamsCreated]; exact hs)
      simpa [firstOpenOrError] using this
    case signalAbort =>
      rw [runFrom_cons]
      have := ih (step s Action.signalAbort)
        (by rw [step_openedState]; exact h) (by rw [step_streamsCreated]; exact hs)
      simpa [firstOpenOrError] using this
    case callClose c r =>
      rw [runFrom_cons]
      have := ih (step s (Action.callClose c r))
        (by rw [step_openedState]; exact h) (by rw [step_streamsCreated]; exact hs)
      simpa [firstOpenOrError] using this
    case streamWrite ch ok =>
      rw [runFrom_cons]
      have := ih (step s (Action.streamWrite ch ok))
        (by rw [step_openedState]; exact h) (by rw [step_streamsCreated]; exact hs)
      simpa [firstOpenOrError] using this
    case streamCloseW =>
      rw [runFrom_cons]
      have := ih (step s Action.streamCloseW)
        (by rw [step_openedState]; exact h) (by rw [step_streamsCreated]; exact hs)
      simpa [firstOpenOrError] using this
    case streamAbortW r =>
      rw [runFrom_cons]
      have := ih (step s (Action.streamAbortW r))
        (by rw [step_openedState]; exact h) (by rw [step_streamsCreated]; exact hs)
      simpa [firstOpenOrError] using this
    case streamCancelR =>
      rw [runFrom_cons]
      have := ih (step s Action.streamCancelR)
        (by rw [step_openedState]; exact h) (by rw [step_streamsCreated]; exact hs)
      simpa [firstOpenOrError] using this

/-! ### Characterization of the `closed` promise over a trace -/

lemma runFrom_closed_settled (tr : List (Action Data Chunk)) (s : WSState Data Chunk)
    (h : s.closedState ≠ none) : (runFrom s tr).closedState = s.closedState := by
  induction tr generalizing s with
  | nil => rfl
  | cons a tr ih =>
    have hc := step_closedState s a
    have h1 : (step s a).closedState = s.closedState := by
      cases a <;> simp_all
    have := ih (step s a) (by rw [h1]; exact h)
    simpa [runFrom, h1] using this

lemma runFrom_closed_none (tr : List (Action Data Chunk)) (s : WSState Data Chunk)
    (h : s.closedState = none) : (runFrom s tr).closedState = firstClose tr := by
  induction tr generalizing s with
  | nil =>
    show s.closedState = firstClose []
    rw [h]
    simp [firstClose]
  | cons a tr ih =>
    cases a
    case sockClose c r =>
      have hc : (step s (Action.sockClose c r)).closedState = some ⟨c, r⟩ := by
        rw [step_closedState]; simp [h]
      have hset := runFrom_closed_settled tr (step s (Action.sockClose c r)) (by rw [hc]; simp)
      rw [runFrom_cons, hset, hc]
      simp [firstClose]
    case sockOpen p e =>
      rw [runFrom_cons]
      have := ih (step s (Action.sockOpen p e)) (by rw [step_closedState]; exact h)
      simpa [firstClose] using this
    case sockMessage d =>
      rw [runFrom_cons]
      have := ih (step s (Action.sockMessage d)) (by rw [step_closedState]; exact h)
      simpa [firstClose] using this
    case sockError =>
      rw [runFrom_cons]
      have := ih (step s Action.sockError) (by rw [step_closedState]; exact h)
      simpa [firstClose] using this
    case signalAbort =>
      rw [runFrom_cons]
      have := ih (step s Action.signalAbort) (by rw [step_closedState]; exact h)
      simpa [firstClose] using this
    case callClose c r =>
      rw [runFrom_cons]
      have := ih (step s (Action.callClose c r)) (by rw [step_closedState]; exact h)
      simpa [firstClose] using this
    case streamWrite ch ok =>
      rw [runFrom_cons]
      have := ih (step s (Action.streamWrite ch ok)) (by rw [step_closedState]; exact h)
      simpa [firstClose] using this
    case streamCloseW =>
      rw [runFrom_cons]
      have := ih (step s Action.streamCloseW) (by rw [step_closedState]; exact h)
      simpa [firstClose] using this
    case streamAbortW r =>
      rw [runFrom_cons]
      have := ih (step s (Action.streamAbortW r)) (by rw [step_closedState]; exact h)
      simpa [firstClose] using this
    case streamCancelR =>
      rw [runFrom_cons]
      have := ih (step s Action.streamCancelR) (by rw [step_closedState]; exact h)
      simpa [firstClose] using this

/-! ### Message and write forwarding -/

lemma step_sockMessage_live (s : WSState Data Chunk) (d : Data)
    (hsc : s.streamsCreated = true) (hr : s.readableCtrl = .readable) :
    step s (.sockMessage d) = { s with readableItems := s.readableItems ++ [d] } := by
  simp [step, hsc, readableMessageListener, hr]

lemma runFrom_messages (ms : List Data) (s : WSState Data Chunk)
    (hsc : s.streamsCreated = true) (hr : s.readableCtrl = .readable) :
    runFrom s (ms.map Action.sockMessage)
      = { s with readableItems := s.readableItems ++ ms } := by
  induction ms generalizing s with
  | nil => simp [runFrom]
  | cons d ms ih =>
    rw [List.map_cons, runFrom_cons, step_sockMessage_live s d hsc hr,
      ih { s with readableItems := s.readableItems ++ [d] } hsc hr]
    simp

lemma step_streamWrite_live (s : WSState Data Chunk) (ch : Chunk)
    (hsc : s.streamsCreated = true) (hw : s.writableCtrl = .writable) :
    step s (.streamWrite ch true) = { s with sockCalls := s.sockCalls ++ [.send ch] } := by
  simp [step, hsc, writableWrite, hw, wsSend]

lemma runFrom_writes (xs : List Chunk) (s : WSState Data Chunk)
    (hsc : s.streamsCreated = true) (hw : s.writableCtrl = .writable) :
    runFrom s (xs.map (fun x => Action.streamWrite x true))
      = { s with sockCalls := s.sockCalls ++ xs.map SockCall.send } := by
  induction xs generalizing s with
  | nil => simp [runFrom]
  | cons x xs ih =>
    rw [List.map_cons, runFrom_cons, step_streamWrite_live s x hsc hw,
      ih { s with sockCalls := s.sockCalls ++ [SockCall.send x] } hsc hw]
    simp

lemma sends_calls_append (s : WSState Data Chunk) (l : List (SockCall Chunk)) :
    sends { s with sockCalls := s.sockCalls ++ l }
      = sends s ++ l.filterMap (fun c => match c with | .send ch => some ch | _ => none) := by
  simp [sends, List.filterMap_append]

lemma closes_calls_append (s : WSState Data Chunk) (l : List (SockCall Chunk)) :
    closes { s with sockCalls := s.sockCalls ++ l }
      = closes s
        ++ l.filterMap (fun c => match c with | .close code r => some (code, r) | _ => none) := by
  simp [closes, List.filterMap_append]

lemma filterMap_send_map (xs : List Chunk) :
    (xs.map SockCall.send).filterMap
      (fun c => match c with | SockCall.send ch => some ch | _ => none) = xs := by
  induction xs with
  | nil => rfl
  | cons x xs ih => simp [ih]

lemma filterMap_close_map (xs : List Chunk) :
    (xs.map SockCall.send).filterMap
      (fun c => match c with | SockCall.close code r => some (code, r) | _ => none) = [] := by
  induction xs with
  | nil => rfl
  | cons x xs ih => simp [ih]

/-! ### Effect of a socket close event on the stream controllers -/

lemma writableCtrl_onSockClose (s : WSState Data Chunk) (c : Nat) (r : String) :
    (onSockClose s c r).writableCtrl =
      if s.streamsCreated = true ∧ s.writableCtrl = WCtrl.writable then WCtrl.erroredByClose
      else s.writableCtrl := by
  simp only [onSockClose, closedResolver, readableCloseListener_eq, writableCloseListener]
  by_cases h1 : s.closedState = none <;>
    by_cases h2 : s.streamsCreated = true <;>
    by_cases h3 : s.readableCtrl = RCtrl.readable <;>
    by_cases h4 : s.writableCtrl = WCtrl.writable <;>
    simp [h1, h2, h3, h4]

lemma readableCtrl_onSockClose (s : WSState Data Chunk) (c : Nat) (r : String)
    (hsc : s.streamsCreated = true) (h : s.readableCtrl ≠ RCtrl.erroredCtrl) :
    (onSockClose s c r).readableCtrl = RCtrl.closedCtrl := by
  simp only [onSockClose, closedResolver, readableCloseListener_eq, writableCloseListener]
  cases hr : s.readableCtrl with
  | readable =>
    by_cases h1 : s.closedState = none <;> by_cases h4 : s.writableCtrl = WCtrl.writable <;>
      simp [h1, h4, hsc, hr]
  | closedCtrl =>
    by_cases h1 : s.closedState = none <;> by_cases h4 : s.writableCtrl = WCtrl.writable <;>
      simp [h1, h4, hsc, hr]
  | erroredCtrl => exact absurd hr h

/-! ### Invariants: the readable side never errors, the signal never re-arms -/

lemma step_readable_not_errored (s : WSState Data Chunk) (a : Action Data Chunk)
    (h : s.readableCtrl ≠ RCtrl.erroredCtrl) :
    (step s a).readableCtrl ≠ RCtrl.erroredCtrl := by
  cases a <;>
    simp only [step, openListener, errorListener, onSockClose, closedResolver,
      readableCloseListener_eq, writableCloseListener, readableMessageListener, readableCancel,
      writableWrite, writableClose, writableAbort, wsClose, wsSend, wssClose, signalFire] <;>
    (repeat' split) <;> simp_all

lemma run_readable_not_errored (b : Bool) (tr : List (Action Data Chunk)) :
    (run b tr).readableCtrl ≠ RCtrl.erroredCtrl := by
  suffices h : ∀ (tr : List (Action Data Chunk)) (s : WSState Data Chunk),
      s.readableCtrl ≠ RCtrl.erroredCtrl → (runFrom s tr).readableCtrl ≠ RCtrl.erroredCtrl by
    exact h tr (init b) (by simp [init])
  intro tr
  induction tr with
  | nil => intro s h; exact h
  | cons a tr ih => intro s h; exact ih (step s a) (step_readable_not_errored s a h)

lemma step_signalArmed_false (s : WSState Data Chunk) (a : Action Data Chunk)
    (h : s.signalArmed = false) : (step s a).signalArmed = false := by
  cases a <;>
    simp only [step, openListener, errorListener, onSockClose, closedResolver,
      readableCloseListener_eq, writableCloseListener, readableMessageListener, readableCancel,
      writableWrite, writableClose, writableAbort, wsClose, wsSend, wssClose, signalFire] <;>
    (repeat' split) <;> simp_all

lemma runFrom_signalArmed_false (tr : List (Action Data Chunk)) (s : WSState Data Chunk)
    (h : s.signalArmed = false) : (runFrom s tr).signalArmed = false := by
  induction tr generalizing s with
  | nil => exact h
  | cons a tr ih => exact ih (step s a) (step_signalArmed_false s a h)

lemma step_signalAbort_disarmed (s : WSState Data Chunk) (h : s.signalArmed = false) :
    step s Action.signalAbort = s := by
  simp [step, signalFire, h]

/-! ### Claims -/

/-- C1: over any event trace, the `opened` promise's settlement is dictated by
the first `open` or `error` event alone — an `open` event first resolves it
with exactly the protocol/extensions carried by the socket at that event, an
`error` event first rejects it with the generic connection-failure error, and
later `open`/`error` events never re-settle it; moreover the
readable/writable pair exists exactly when the promise resolved, i.e. it is
constructed at resolution time and never before. -/
theorem opened_settles_once_with_socket_values (b : Bool)
    (tr : List (Action Data Chunk)) :
    (run b tr).openedState = firstOpenOrError tr ∧
      ((run b tr).streamsCreated = true ↔
        ∃ p e, firstOpenOrError tr = OpenedState.resolved p e) :=
  runFrom_opened_pending tr (init b) rfl rfl

/-- C2: over any event trace, the `closed` promise is settled exactly by the
first socket `close` event — it resolves with exactly that event's
code/reason pair, no matter which side initiated the closure, later `close`
events cannot re-settle it, and on any trace with no `close` event (for
example an `error` event only) it stays unsettled. -/
theorem closed_settles_exactly_on_close (b : Bool) (tr : List (Action Data Chunk)) :
    (run b tr).closedState = firstClose tr :=
  runFrom_closed_none tr (init b) rfl

/-- C10: the `closed` promise has no rejection path: its executor only ever
resolves, so over any event trace it is either still pending or resolved with
the code/reason pair of the trace's first `close` event. -/
theorem closed_never_rejects (b : Bool) (tr : List (Action Data Chunk)) :
    (run b tr).closedState = none ∨
      ∃ c r, (run b tr).closedState = some ⟨c, r⟩ ∧
        firstClose tr = some ⟨c, r⟩ := by
  have h := runFrom_closed_none tr (init b : WSState Data Chunk) rfl
  rcases hf : firstClose tr with _ | ⟨c, r⟩
  · left; rw [run, h, hf]
  · right; exact ⟨c, r, by rw [run, h, hf], rfl⟩

/-- C3: once the connection is open and the inbound stream still readable,
delivering any sequence of `message` events enqueues exactly one stream item
per event, carrying that event's payload unmodified, in arrival order — no
reordering, batching, splitting, or dropping. -/
theorem messages_enqueued_in_order (b : Bool) (pre : List (Action Data Chunk))
    (ms : List Data) (hsc : (run b pre).streamsCreated = true)
    (hr : (run b pre).readableCtrl = RCtrl.readable) :
    (runFrom (run b pre) (ms.map Action.sockMessage)).readableItems
      = (run b pre).readableItems ++ ms := by
  rw [runFrom_messages ms (run b pre) hsc hr]

/-- Closed witness for `messages_enqueued_in_order`: after an `open` event,
messages `[10, 20, 30]` are read back as exactly `[10, 20, 30]`. -/
theorem messages_enqueued_in_order_witness :
    (run true ([Action.sockOpen "p" "x"] : List (Action Nat Nat))).streamsCreated = true ∧
    (run true ([Action.sockOpen "p" "x"] : List (Action Nat Nat))).readableCtrl
      = RCtrl.readable ∧
    (runFrom (run true ([Action.sockOpen "p" "x"] : List (Action Nat Nat)))
        ([10, 20, 30].map Action.sockMessage)).readableItems
      = (run true ([Action.sockOpen "p" "x"] : List (Action Nat Nat))).readableItems
        ++ [10, 20, 30] :=
  ⟨by decide, by decide,
    messages_enqueued_in_order true [Action.sockOpen "p" "x"] [10, 20, 30]
      (by decide) (by decide)⟩

/-- C4: once the connection is open and the outbound stream still writable,
every write invokes the socket's `send` with the written chunk, so a sequence
of writes produces exactly those chunks as `send` calls in write order, with
no socket `close` call issued; and a write whose underlying `send` throws
still records that `send` invocation, rejects that write operation, and
issues no socket `close` call by itself. -/
theorem writes_forwarded_in_order (b : Bool) (pre : List (Action Data Chunk))
    (xs : List Chunk) (ch : Chunk) (hsc : (run b pre).streamsCreated = true)
    (hw : (run b pre).writableCtrl = WCtrl.writable) :
    sends (runFrom (run b pre) (xs.map (fun x => Action.streamWrite x true)))
        = sends (run b pre) ++ xs ∧
      closes (runFrom (run b pre) (xs.map (fun x => Action.streamWrite x true)))
        = closes (run b pre) ∧
      (writableWrite (run b pre) ch false).2 = Except.error () ∧
      sends (writableWrite (run b pre) ch false).1 = sends (run b pre) ++ [ch] ∧
      closes (writableWrite (run b pre) ch false).1 = closes (run b pre) := by
  refine ⟨?_, ?_, ?_, ?_, ?_⟩
  · rw [runFrom_writes xs (run b pre) hsc hw, sends_calls_append, filterMap_send_map]
  · rw [runFrom_writes xs (run b pre) hsc hw, closes_calls_append, filterMap_close_map]
    simp
  · simp [writableWrite, hw]
  · simp [writableWrite, hw, wsSend, sends, List.filterMap_append]
  · simp [writableWrite, hw, wsSend, closes, List.filterMap_append]

/-- Closed witness for `writes_forwarded_in_order`: after an `open` event,
writing `[7, 8]` invokes `send` with exactly `[7, 8]`, and a failing send of
`9` rejects that write without closing. -/
theorem writes_forwarded_in_order_witness :
    (run false ([Action.sockOpen "" ""] : List (Action Nat Nat))).streamsCreated = true ∧
    (run false ([Action.sockOpen "" ""] : List (Action Nat Nat))).writableCtrl
      = WCtrl.writable ∧
    sends (runFrom (run false ([Action.sockOpen "" ""] : List (Action Nat Nat)))
        ([7, 8].map (fun x => Action.streamWrite x true)))
      = sends (run false ([Action.sockOpen "" ""] : List (Action Nat Nat))) ++ [7, 8] :=
  ⟨by decide, by decide,
    (writes_forwarded_in_order false [Action.sockOpen "" ""] [7, 8] 9
      (by decide) (by decide)).1⟩

/-- C5: for every address that parses to a URL scheme outside the four-value
allow-list, construction fails synchronously with the `SyntaxError` whose
message names the allowed values, never reaches the socket factory (no `.ok`
state is ever produced), and that message is exactly the string listing
`"ws:", "wss:", "http:", "https:"`. -/
theorem scheme_allowlist_enforced (url p : String) (b : Bool)
    (hp : urlProtocol url = some p) (hmem : p ∉ ALLOWED_PROTOCOLS) :
    (construct url b : Except ConstructError (WSState Data Chunk))
        = Except.error (ConstructError.syntaxError invalidProtocolMessage) ∧
      (∀ s : WSState Data Chunk, (construct url b : Except ConstructError (WSState Data Chunk))
        ≠ Except.ok s) ∧
      invalidProtocolMessage
        = "Failed to create WebSocketStream. Cause: Invalid URL protocol. Possible values are: \"ws:\", \"wss:\", \"http:\", \"https:\"." := by
  have hc : (construct url b : Except ConstructError (WSState Data Chunk))
      = Except.error (ConstructError.syntaxError invalidProtocolMessage) := by
    simp [construct, hp, hmem]
  refine ⟨hc, ?_, by rfl⟩
  intro s hok
  rw [hc] at hok
  cases hok

/-- Closed witness for `scheme_allowlist_enforced`: `ftp://example.com` has
scheme `ftp:`, which is not allow-listed, and construction fails with the
`SyntaxError`. -/
theorem scheme_allowlist_enforced_witness :
    urlProtocol "ftp://example.com" = some "ftp:" ∧
      "ftp:" ∉ ALLOWED_PROTOCOLS ∧
      (construct "ftp://example.com" false : Except ConstructError (WSState Nat Nat))
        = Except.error (ConstructError.syntaxError invalidProtocolMessage) :=
  ⟨by decide, by decide,
    (scheme_allowlist_enforced "ftp://example.com" "ftp:" false (by decide) (by decide)).1⟩

/-- C6: on a socket close event, the writable stream transitions to the
close-driven error state only from the `writable` state; in particular if
the producer had already completed it — graceful `close()`
(`closedByProducer`) or `abort(reason)` (`erroredAbort`), the paths whose
sink hooks themselves request the socket close — the close event leaves the
writable stream's state untouched. -/
theorem writable_errored_only_without_producer_close (b : Bool)
    (tr : List (Action Data Chunk)) (c : Nat) (r : String) :
    (((run b tr).writableCtrl = WCtrl.closedByProducer ∨
        (∃ x, (run b tr).writableCtrl = WCtrl.erroredAbort x)) →
      (step (run b tr) (Action.sockClose c r)).writableCtrl = (run b tr).writableCtrl) ∧
      ((run b tr).streamsCreated = true → (run b tr).writableCtrl = WCtrl.writable →
        (step (run b tr) (Action.sockClose c r)).writableCtrl = WCtrl.erroredByClose) := by
  constructor
  · intro h
    have hne : ¬ ((run b tr).streamsCreated = true ∧
        (run b tr).writableCtrl = WCtrl.writable) := by
      rintro ⟨-, hww⟩
      rcases h with h | ⟨x, h⟩ <;> rw [h] at hww <;> cases hww
    show (onSockClose (run b tr) c r).writableCtrl = _
    rw [writableCtrl_onSockClose, if_neg hne]
  · intro h1 h2
    show (onSockClose (run b tr) c r).writableCtrl = _
    rw [writableCtrl_onSockClose, if_pos ⟨h1, h2⟩]

/-- Closed witness for `writable_errored_only_without_producer_close`: after
a producer-side graceful close, a socket close event does not error the
writable stream. -/
theorem writable_errored_only_without_producer_close_witness :
    (run false ([Action.sockOpen "" "", Action.streamCloseW] : List (Action Nat Nat))).writableCtrl
        = WCtrl.closedByProducer ∧
      (step (run false ([Action.sockOpen "" "", Action.streamCloseW] : List (Action Nat Nat)))
          (Action.sockClose 1000 "bye")).writableCtrl
        = (run false ([Action.sockOpen "" "", Action.streamCloseW] : List (Action Nat Nat))).writableCtrl :=
  ⟨by decide,
    (writable_errored_only_without_producer_close false
      [Action.sockOpen "" "", Action.streamCloseW] 1000 "bye").1 (Or.inl (by decide))⟩

/-- C7: aborting the writable stream with reason `x` issues exactly one
socket close call, with the default (absent) close code and `x` as the
reason; and when the resulting socket close event arrives, the readable
stream is closed normally (`closedCtrl`), not errored. -/
theorem abort_single_close_with_reason (b : Bool) (tr : List (Action Data Chunk))
    (x : String) (c : Nat) (r : String) (hsc : (run b tr).streamsCreated = true)
    (hw : (run b tr).writableCtrl = WCtrl.writable) :
    (step (run b tr) (Action.streamAbortW x)).sockCalls
        = (run b tr).sockCalls ++ [SockCall.close none (some x)] ∧
      (step (step (run b tr) (Action.streamAbortW x)) (Action.sockClose c r)).readableCtrl
        = RCtrl.closedCtrl := by
  have habort : step (run b tr) (Action.streamAbortW x)
      = wsClose { (run b tr) with writableCtrl := WCtrl.erroredAbort x } none (some x) := by
    simp [step, hsc, writableAbort, hw]
  constructor
  · rw [habort]; rfl
  · show (onSockClose (step (run b tr) (Action.streamAbortW x)) c r).readableCtrl = _
    apply readableCtrl_onSockClose
    · rw [habort]
      simpa [wsClose] using hsc
    · rw [habort]
      simpa [wsClose] using run_readable_not_errored b tr

/-- Closed witness for `abort_single_close_with_reason`: aborting with
reason `"X"` records exactly `close(undefined, "X")`. -/
theorem abort_single_close_with_reason_witness :
    (run false ([Action.sockOpen "" ""] : List (Action Nat Nat))).streamsCreated = true ∧
      (run false ([Action.sockOpen "" ""] : List (Action Nat Nat))).writableCtrl
        = WCtrl.writable ∧
      (step (run false ([Action.sockOpen "" ""] : List (Action Nat Nat)))
          (Action.streamAbortW "X")).sockCalls
        = (run false ([Action.sockOpen "" ""] : List (Action Nat Nat))).sockCalls
          ++ [SockCall.close none (some "X")] :=
  ⟨by decide, by decide,
    (abort_single_close_with_reason false [Action.sockOpen "" ""] "X" 1000 ""
      (by decide) (by decide)).1⟩

/-- C8: every socket close event leaves the readable stream gracefully
closed: from the readable state the controller is closed, and when the
stream is already closed the underlying `controller.close()` throws
(`controllerCloseR` yields `none`) but the listener's `try/catch` swallows
it, leaving the state unchanged — a no-op, never a surfaced failure. -/
theorem close_event_closes_readable (b : Bool) (tr : List (Action Data Chunk))
    (c : Nat) (r : String) (hsc : (run b tr).streamsCreated = true) :
    (step (run b tr) (Action.sockClose c r)).readableCtrl = RCtrl.closedCtrl ∧
      (controllerCloseR (run b tr).readableCtrl = none →
        readableCloseListener (run b tr) = run b tr) := by
  constructor
  · show (onSockClose (run b tr) c r).readableCtrl = _
    exact readableCtrl_onSockClose (run b tr) c r hsc (run_readable_not_errored b tr)
  · intro h
    unfold readableCloseListener
    rw [h]

/-- Closed witness for `close_event_closes_readable`: a second close event,
arriving when the readable stream is already closed, still ends with the
stream closed and no failure. -/
theorem close_event_closes_readable_witness :
    (run false ([Action.sockOpen "" "", Action.sockClose 1000 "bye"] : List (Action Nat Nat))).streamsCreated
        = true ∧
      (step (run false ([Action.sockOpen "" "", Action.sockClose 1000 "bye"] : List (Action Nat Nat)))
          (Action.sockClose 1006 "")).readableCtrl = RCtrl.closedCtrl :=
  ⟨by decide,
    (close_event_closes_readable false [Action.sockOpen "" "", Action.sockClose 1000 "bye"]
      1006 "" (by decide)).1⟩

/-- C9: firing the supplied cancellation signal while the one-shot handler is
armed behaves exactly like `close()` with no arguments (the resulting state
is identical apart from the now-disarmed handler), issues exactly one socket
close call with default code and reason, and — the handler being `once` —
any later firing of the signal, after any further activity, is a strict
no-op issuing no further close call. -/
theorem signal_one_shot_close_equiv (b : Bool) (tr : List (Action Data Chunk))
    (h : (run b tr).signalArmed = true) :
    step (run b tr) Action.signalAbort
        = { step (run b tr) (Action.callClose none none) with signalArmed := false } ∧
      (step (run b tr) Action.signalAbort).sockCalls
        = (run b tr).sockCalls ++ [SockCall.close none none] ∧
      ∀ tr' : List (Action Data Chunk),
        step (runFrom (step (run b tr) Action.signalAbort) tr') Action.signalAbort
          = runFrom (step (run b tr) Action.signalAbort) tr' := by
  have hfire : step (run b tr) Action.signalAbort
      = { (run b tr) with signalArmed := false, sockCalls := (run b tr).sockCalls ++ [SockCall.close none none] } := by
    simp [step, signalFire, h, wssClose, wsClose]
  refine ⟨?_, ?_, ?_⟩
  · rw [hfire]; rfl
  · rw [hfire]
  · intro tr'
    have harm : (runFrom (step (run b tr) Action.signalAbort) tr').signalArmed = false := by
      apply runFrom_signalArmed_false
      rw [hfire]
    exact step_signalAbort_disarmed _ harm

/-- Closed witness for `signal_one_shot_close_equiv`: with a signal supplied,
firing it records exactly one `close()` call with default arguments. -/
theorem signal_one_shot_close_equiv_witness :
    (run true ([] : List (Action Nat Nat))).signalArmed = true ∧
      (step (run true ([] : List (Action Nat Nat))) Action.signalAbort).sockCalls
        = (run true ([] : List (Action Nat Nat))).sockCalls ++ [SockCall.close none none] :=
  ⟨by decide, (signal_one_shot_close_equiv true [] (by decide)).2.1⟩

end WSPonyfill
